import Mathlib

/-!
# Showcase Editor client: formal model

A shallow embedding of the job-tracking client of the Showcase repository:

* the polling client in `src/frontend/src/pages/Editor.tsx` — the
  `pollJobStatus` closure, the 2000 ms interval / 300000 ms deadline timers,
  and the chat `handleSend` handler;
* the streaming (WebSocket) client in `src/unnamed/part_001` — its
  `handleSend`, `socket.onmessage` and `socket.onerror` handlers.

Every definition is translated directly from the TypeScript source.  JavaScript
truthiness of optional strings (`s || d` and `!s`) is modelled explicitly by
`jsOrElse` / `jsTruthy`, since `searchParams.get` / optional fields yield
`null | string` and the empty string is falsy.
-/

/-- The job status union type from `Editor.tsx` (`type JobStatus = ...`). -/
inductive JobStatus where
  | pending
  | processing
  | ocr_extracting
  | ai_generating
  | validating
  | completed
  | failed
  | cancelled
deriving DecidableEq, Repr

/-- The `error` field of a job snapshot: `{ message: string; details?: any }`.
The structured `details` payload is kept opaque as an optional string. -/
structure JobError where
  message : String
  details : Option String
deriving DecidableEq, Repr

/-- A job snapshot as returned by `GET /jobs/{id}` (`interface JobStatusData`).
`duration_seconds` is omitted: it is only ever displayed, never branched on. -/
structure JobStatusData where
  job_id : String
  status : JobStatus
  progress_percentage : Nat
  current_stage : Option String
  error : Option JobError
  portfolio_id : Option String
deriving DecidableEq, Repr

/-- Message role: `"user" | "assistant"`. -/
inductive Role where
  | user
  | assistant
deriving DecidableEq, Repr

/-- One chat message: `{ role: "user" | "assistant"; content: string }`. -/
structure Message where
  role : Role
  content : String
deriving DecidableEq, Repr

/-- The portfolio artifact returned by `GET /portfolio/{id}`.  The client
stores it as-is (`setPortfolioData(portfolio)`) and only renders it, so the
payload is kept opaque. -/
structure Portfolio where
  raw : String
deriving DecidableEq, Repr

/-- JavaScript `a || d` for an optional string: `null` and `""` are falsy. -/
def jsOrElse (a : Option String) (d : String) : String :=
  match a with
  | none => d
  | some s => if s = "" then d else s

/-- JavaScript truthiness of an optional string: `null` and `""` are falsy. -/
def jsTruthy (a : Option String) : Bool :=
  match a with
  | none => false
  | some s => s ≠ ""

/-- JavaScript `String.prototype.trim`: strip leading and trailing
whitespace.  Modelled over the string's character list so that it reduces in
the kernel. -/
def jsTrim (s : String) : String :=
  .mk (((s.data.dropWhile Char.isWhitespace).reverse.dropWhile Char.isWhitespace).reverse)

/-- Does `p` occur at the very start of `cs`?  Structural recursion over the
character lists so that it reduces in the kernel. -/
def leadsWith : List Char → List Char → Bool
  | [], _ => true
  | _ :: _, [] => false
  | p :: ps, c :: cs => p == c && leadsWith ps cs

/-- Does `pat` occur as a contiguous run somewhere in the list? -/
def hasSub (pat : List Char) : List Char → Bool
  | [] => leadsWith pat []
  | c :: cs => leadsWith pat (c :: cs) || hasSub pat cs

/-- `String.includes` of JavaScript: `pat` occurs somewhere in `s` (the empty
pattern occurs in every string, as in JavaScript). -/
def jsIncludes (s pat : String) : Bool :=
  hasSub pat.data s.data

/-- The observable state of the polling editor component: the `messages`,
`input`, `isGenerating`, `jobStatus` and `portfolioData` React state cells. -/
structure EditorState where
  messages : List Message
  input : String
  isGenerating : Bool
  jobStatus : Option JobStatusData
  portfolioData : Option Portfolio
deriving DecidableEq, Repr

/-- Outcome of one `api.get` call, as observed through axios: a parsed body on
success, or an error carrying `error.response?.status` (`none` models a network
failure with no response object). -/
inductive FetchOutcome (α : Type) where
  | ok (body : α)
  | err (httpStatus : Option Nat)
deriving DecidableEq, Repr

/-- The fixed status → status-line lookup table (`statusMessages` in
`pollJobStatus`); `failed` interpolates `statusData.error?.message ||
"Unknown error"`. -/
def statusMessages (d : JobStatusData) : JobStatus → String
  | .pending => "Job queued, waiting to start..."
  | .processing => "Initializing portfolio generation..."
  | .ocr_extracting => "Extracting text from your resume..."
  | .ai_generating => "AI is generating your portfolio content..."
  | .validating => "Validating and finalizing your portfolio..."
  | .completed => "Portfolio generation complete!"
  | .failed => "Generation failed: " ++ jsOrElse (d.error.map (·.message)) "Unknown error"
  | .cancelled => "Job was cancelled"

/-- The progress line a poll tick writes into the timeline:
`` `${statusMessage}\n\nProgress: ${...}%\nStage: ${... || "Initializing"}` ``. -/
def progressLine (d : JobStatusData) : String :=
  statusMessages d d.status ++ "\n\nProgress: " ++ toString d.progress_percentage
    ++ "%\nStage: " ++ jsOrElse d.current_stage "Initializing"

/-- The guard of the coalescing updater:
`lastMsg?.role === "assistant" && lastMsg.content.includes("analyzing")`. -/
def isAckAssistant (m : Message) : Bool :=
  m.role == .assistant && jsIncludes m.content "analyzing"

/-- The coalescing `setMessages` updater of a poll tick: if the last message is
an assistant message whose content contains `"analyzing"`, replace it in place
with `newContent`; otherwise leave the list unchanged.  (An empty list makes
the optional-chained guard false, so the list is returned unchanged.) -/
def coalesceStatus (msgs : List Message) (newContent : String) : List Message :=
  if (msgs.getLast?.map isAckAssistant).getD false then
    msgs.dropLast ++ [⟨.assistant, newContent⟩]
  else msgs

/-- The completion message appended after a successful portfolio fetch. -/
def completionMessage : Message :=
  ⟨.assistant, "✅ Portfolio generation complete! Your portfolio is ready. Check the preview window."⟩

/-- The failure message appended on `status === "failed"`. -/
def failureMessage (d : JobStatusData) : Message :=
  ⟨.assistant, "❌ Portfolio generation failed.\n\nError: "
      ++ jsOrElse (d.error.map (·.message)) "Unknown error"
      ++ "\n\nPlease try uploading your resume again."⟩

/-- The message appended when the status fetch itself returns HTTP 404. -/
def jobNotFoundMessage : Message :=
  ⟨.assistant, "❌ Job not found. Please check your job ID and try again."⟩

/-- Result of one invocation of `pollJobStatus`: the updated component state,
the boolean the closure returns (`true` = stop polling, the interval is then
cleared), and whether the tick issued the `GET /portfolio/{jobId}` request. -/
structure PollTickResult where
  state : EditorState
  shouldStop : Bool
  portfolioFetched : Bool
deriving DecidableEq, Repr

/-- One invocation of the `pollJobStatus` closure of `Editor.tsx`, as a
function of the component state and of the outcomes of the (at most two)
network calls the tick makes.  Faithful to the source:

* a fetch-level error: HTTP 404 appends the job-not-found message, clears
  `isGenerating` and returns `true`; any other error returns `false` with the
  state untouched;
* otherwise the snapshot overwrites `jobStatus`, the coalescing updater runs,
  then: `completed` with a truthy `portfolio_id` triggers the portfolio fetch
  (success appends the completion message, stores the artifact, clears
  `isGenerating` and stops; any fetch error — 202, 404 or other — just
  returns `false`); `failed` appends the failure message, clears
  `isGenerating` and stops; every other status returns `false`. -/
def pollJobStatus (st : EditorState) (statusFetch : FetchOutcome JobStatusData)
    (portfolioFetch : FetchOutcome Portfolio) : PollTickResult :=
  match statusFetch with
  | .err httpStatus =>
      if httpStatus = some 404 then
        { state := { st with
            isGenerating := false
            messages := st.messages ++ [jobNotFoundMessage] }
          shouldStop := true
          portfolioFetched := false }
      else
        { state := st, shouldStop := false, portfolioFetched := false }
  | .ok statusData =>
      let st1 : EditorState := { st with jobStatus := some statusData }
      let st2 : EditorState :=
        { st1 with messages := coalesceStatus st1.messages (progressLine statusData) }
      if statusData.status = .completed ∧ jsTruthy statusData.portfolio_id then
        match portfolioFetch with
        | .ok portfolio =>
            { state := { st2 with
                portfolioData := some portfolio
                messages := st2.messages ++ [completionMessage]
                isGenerating := false }
              shouldStop := true
              portfolioFetched := true }
        | .err _ =>
            -- 202/404 ("not yet available") and any other portfolio-fetch
            -- error alike: keep polling, append nothing.
            { state := st2, shouldStop := false, portfolioFetched := true }
      else if statusData.status = .failed then
        { state := { st2 with
            isGenerating := false
            messages := st2.messages ++ [failureMessage statusData] }
          shouldStop := true
          portfolioFetched := false }
      else
        { state := st2, shouldStop := false, portfolioFetched := false }

/-! ## Session-level model of the polling flow

The `useEffect` of `Editor.tsx` (when a `jobId` query parameter is present)
seeds the timeline with the user's message and the assistant acknowledgement,
sets `isGenerating`, seeds `jobStatus` with a `pending` snapshot, performs an
initial poll, then arms a 2000 ms `setInterval` (cleared when `pollJobStatus`
returns `true`) and a 300000 ms `setTimeout` deadline.  The deadline timer is
cleared only by the effect's cleanup (unmount / dependency change) — never by
the terminal branches of `pollJobStatus` — and its callback tests
`jobStatus?.status`, where `jobStatus` is the React state value captured at
the render that armed the timer, i.e. still `null`. -/

/-- The user message built by the effect (`userParts.join("\n")`), in the
branch where a `jobId` is present. -/
def initialUserContent (initialPrompt : String) (attachedFile : Option String)
    (jobId : String) : String :=
  String.intercalate "\n"
    ((if initialPrompt ≠ "" then [initialPrompt] else [])
      ++ (match attachedFile with
          | none => []
          | some f => if f ≠ "" then ["[Attached: " ++ f ++ "]"] else [])
      ++ (if jobId ≠ "" then ["[Job ID: " ++ jobId ++ "]"] else []))

/-- The assistant acknowledgement built by the effect when a `jobId` is
present; note that it contains the word `"analyzing"`, which is what the
coalescing updater keys on. -/
def initialAssistantContent (attachedFile : Option String) (jobId : String) : String :=
  "I've received your resume (" ++ jsOrElse attachedFile "file" ++ "). Job ID: "
    ++ jobId
    ++ ".\n\nI am currently analyzing the document to extract your skills, experience, and projects. Once done, I will generate your portfolio structure."

/-- The component state right after the effect's synchronous part ran, in the
`jobId` branch: two seeded messages, `isGenerating := true`, and a client-side
`pending` snapshot. -/
def initialEditorState (initialPrompt : String) (attachedFile : Option String)
    (jobId : String) : EditorState :=
  { messages :=
      [⟨.user, initialUserContent initialPrompt attachedFile jobId⟩,
        ⟨.assistant, initialAssistantContent attachedFile jobId⟩]
    input := ""
    isGenerating := true
    jobStatus := some
      { job_id := jobId
        status := .pending
        progress_percentage := 0
        current_stage := none
        error := none
        portfolio_id := none }
    portfolioData := none }

/-- Run successive poll ticks on the given network outcomes, stopping (as
`clearInterval(intervalId)` does) as soon as a tick returns `true`.  Returns
the final state and whether the loop stopped before exhausting the inputs. -/
def runTicks (st : EditorState) :
    List (FetchOutcome JobStatusData × FetchOutcome Portfolio) → EditorState × Bool
  | [] => (st, false)
  | (sf, pf) :: rest =>
      let r := pollJobStatus st sf pf
      if r.shouldStop then (r.state, true) else runTicks r.state rest

/-- The timeout message of the 300000 ms deadline callback. -/
def timeoutMessage : Message :=
  ⟨.assistant, "⏱️ Polling timeout. Please check the job status manually or try again."⟩

/-- The 300000 ms deadline callback: it clears the interval and, when the
*captured* `jobStatus?.status` is neither `"completed"` nor `"failed"`,
appends the timeout message and clears `isGenerating`.  `captured` is the
`jobStatus` value closed over when the timer was armed. -/
def deadlineFire (captured : Option JobStatusData) (st : EditorState) : EditorState :=
  if captured.map (·.status) ≠ some .completed
      ∧ captured.map (·.status) ≠ some .failed then
    { st with
        isGenerating := false
        messages := st.messages ++ [timeoutMessage] }
  else st

/-- A whole polling session that is *not* unmounted before the deadline: the
effect seeds the state, the listed ticks run (the initial poll plus interval
ticks, cut short when a tick stops the interval), and then the deadline timer
— which no terminal branch ever cleared — fires with the stale captured
`jobStatus` of the arming render, which is `none`. -/
def runPollingSession (initialPrompt : String) (attachedFile : Option String)
    (jobId : String)
    (inputs : List (FetchOutcome JobStatusData × FetchOutcome Portfolio)) :
    EditorState :=
  let st0 := initialEditorState initialPrompt attachedFile jobId
  let (st1, _) := runTicks st0 inputs
  deadlineFire none st1

/-- The chat-box `handleSend` of `Editor.tsx`: an empty or whitespace-only
`input` returns immediately; otherwise the user message is appended, the input
is cleared and `isGenerating` is set.  (The 1500 ms `setTimeout` body that
later appends the canned assistant reply is modelled separately by
`editorHandleSendTimeoutFire`.) -/
def editorHandleSend (st : EditorState) : EditorState :=
  if jsTrim st.input = "" then st
  else
    { st with
        messages := st.messages ++ [⟨.user, st.input⟩]
        input := ""
        isGenerating := true }

/-- The 1500 ms callback scheduled by `editorHandleSend`'s non-empty branch. -/
def editorHandleSendTimeoutFire (st : EditorState) : EditorState :=
  { st with
      messages := st.messages
        ++ [⟨.assistant, "I've made those changes. You can see the updated preview on the right."⟩]
      isGenerating := false }

/-! ## The streaming (WebSocket) client of `src/unnamed/part_001` -/

/-- The reserved end-of-stream sentinel frame. -/
def endOfStream : String := "__END_OF_STREAM__"

/-- Observable state of the streaming editor: the `messages`, `input` and
`isGenerating` React cells, the session-local `accumulatedResponse` variable,
whether the socket is open, and how many connections were ever opened (each
`new WebSocket(WS_URL)` increments it — it lets "no reconnection" be stated). -/
structure StreamState where
  messages : List Message
  input : String
  isGenerating : Bool
  accumulatedResponse : String
  socketOpen : Bool
  connectionsOpened : Nat
deriving DecidableEq, Repr

/-- The `handleSend` of the streaming editor.  `overrideInput || input` picks
the text (JavaScript: an absent *or empty* override falls back to `input`);
an all-whitespace text returns with nothing changed; otherwise the user
message is appended, `input` is cleared only when the override was falsy
(`if (!overrideInput) setInput("")`), `isGenerating` is set, and a fresh
socket is opened with an empty accumulator. -/
def streamHandleSend (st : StreamState) (overrideInput : Option String) : StreamState :=
  let textToSend := jsOrElse overrideInput st.input
  if jsTrim textToSend = "" then st
  else
    { st with
        messages := st.messages ++ [⟨.user, textToSend⟩]
        input := if jsTruthy overrideInput then st.input else ""
        isGenerating := true
        accumulatedResponse := ""
        socketOpen := true
        connectionsOpened := st.connectionsOpened + 1 }

/-- The `socket.onmessage` handler: the sentinel clears `isGenerating` and
closes the socket; any other frame is appended to the accumulator and the last
timeline message is replaced by `{role: assistant, content: accumulator}` when
it is already an assistant message, else a new assistant message is appended. -/
def onMessageFrame (st : StreamState) (data : String) : StreamState :=
  if data = endOfStream then
    { st with isGenerating := false, socketOpen := false }
  else
    let acc := st.accumulatedResponse ++ data
    if (st.messages.getLast?.map (·.role == Role.assistant)).getD false then
      { st with
          accumulatedResponse := acc
          messages := st.messages.dropLast ++ [⟨.assistant, acc⟩] }
    else
      { st with
          accumulatedResponse := acc
          messages := st.messages ++ [⟨.assistant, acc⟩] }

/-- Process a list of inbound frames in arrival order. -/
def runFrames (st : StreamState) (frames : List String) : StreamState :=
  frames.foldl onMessageFrame st

/-- The `socket.onerror` handler: clear `isGenerating` and append one
assistant message reporting the connection failure.  (The message text below
reproduces the source file's literal bytes, mojibake included.)  No new socket
is created and the handler does not touch the accumulator or the input. -/
def onSocketError (st : StreamState) : StreamState :=
  { st with
      isGenerating := false
      messages := st.messages
        ++ [⟨.assistant, "‚ùå Connection Error. Please verify backend is running."⟩] }

/-- Concatenation of a list of inbound text fragments, in arrival order. -/
def concatFrames : List String → String
  | [] => ""
  | f :: rest => f ++ concatFrames rest

/-! ## Helper lemmas -/

/-- The coalescing updater never changes the number of timeline messages: it
either replaces the last message in place or leaves the list untouched. -/
theorem coalesceStatus_length (msgs : List Message) (c : String) :
    (coalesceStatus msgs c).length = msgs.length := by
  unfold coalesceStatus
  by_cases hc : (msgs.getLast?.map isAckAssistant).getD false = true
  · have hne : msgs ≠ [] := by
      intro he
      rw [he] at hc
      simp at hc
    have hpos : 0 < msgs.length := List.length_pos.mpr hne
    rw [if_pos hc, List.length_append, List.length_dropLast]
    simp only [List.length_cons, List.length_nil]
    omega
  · rw [if_neg hc]

/-- When the last message is an assistant message containing `"analyzing"`,
the coalescing updater replaces it in place with the new content. -/
theorem coalesceStatus_replaces (msgs : List Message) (c : String) (m : Message)
    (h : msgs.getLast? = some m) (hm : isAckAssistant m = true) :
    coalesceStatus msgs c = msgs.dropLast ++ [⟨.assistant, c⟩] := by
  unfold coalesceStatus
  rw [h]
  simp [hm]

/-- When the last message is not the acknowledgement pattern, the coalescing
updater leaves the timeline unchanged. -/
theorem coalesceStatus_skips (msgs : List Message) (c : String) (m : Message)
    (h : msgs.getLast? = some m) (hm : isAckAssistant m = false) :
    coalesceStatus msgs c = msgs := by
  unfold coalesceStatus
  rw [h]
  simp [hm]

/-- A successful poll tick whose snapshot is neither `failed` nor
(`completed` with a truthy `portfolio_id`) only overwrites `jobStatus` and
runs the coalescing updater, and asks for another tick. -/
theorem pollJobStatus_ok_nonterminal (st : EditorState) (d : JobStatusData)
    (pf : FetchOutcome Portfolio)
    (hnf : d.status ≠ .failed)
    (hnc : ¬(d.status = .completed ∧ jsTruthy d.portfolio_id = true)) :
    pollJobStatus st (.ok d) pf =
      { state := { st with
          jobStatus := some d
          messages := coalesceStatus st.messages (progressLine d) }
        shouldStop := false
        portfolioFetched := false } := by
  simp only [pollJobStatus]
  rw [if_neg hnc, if_neg hnf]

/-- A successful poll tick whose snapshot is `failed` stops polling, makes no
portfolio fetch, clears the in-progress flag and appends the failure
message (after the coalescing updater ran on the progress line). -/
theorem pollJobStatus_ok_failed (st : EditorState) (d : JobStatusData)
    (pf : FetchOutcome Portfolio) (hf : d.status = .failed) :
    pollJobStatus st (.ok d) pf =
      { state := { st with
          jobStatus := some d
          isGenerating := false
          messages := coalesceStatus st.messages (progressLine d)
            ++ [failureMessage d] }
        shouldStop := true
        portfolioFetched := false } := by
  have hnc : ¬(d.status = .completed ∧ jsTruthy d.portfolio_id = true) := by
    rintro ⟨hc, -⟩
    rw [hf] at hc
    exact JobStatus.noConfusion hc
  simp only [pollJobStatus]
  rw [if_neg hnc, if_pos hf]

/-! ## Claims -/

/-- C1 (code-bug evidence): even when the very first poll reports `completed`
and the portfolio fetch succeeds — a terminal status long before the
300000 ms deadline — the deadline timer is not cancelled (`clearTimeout` only
runs in the effect's cleanup) and its callback tests the stale captured
`jobStatus` (still `null`), so it appends the timeout message after the
completion message was already reported: the session ends with both a
completion and a timeout message on the timeline. -/
theorem c1_timeout_fires_after_completion :
    (runPollingSession "" (some "resume.pdf") "job-1"
        [(.ok { job_id := "job-1", status := .completed, progress_percentage := 100,
                current_stage := none, error := none, portfolio_id := some "p-1" },
          .ok ⟨"artifact"⟩)]).messages
      = [⟨.user, "[Attached: resume.pdf]\n[Job ID: job-1]"⟩,
         ⟨.assistant, "Portfolio generation complete!\n\nProgress: 100%\nStage: Initializing"⟩,
         completionMessage,
         timeoutMessage] := by
  rfl

/-- C2 counterexample: a poll tick that observes status `cancelled` returns
`false` ("continue polling"), so observing `cancelled` does not stop the poll
loop, contrary to the claim. -/
theorem c2_cancelled_does_not_stop :
    (pollJobStatus (initialEditorState "" none "job-1")
        (.ok { job_id := "job-1", status := .cancelled, progress_percentage := 40,
               current_stage := some "x", error := none, portfolio_id := none })
        (.err none)).shouldStop = false := by
  rfl

/-- C2 (amended): observing `failed`, or `completed` with a truthy
`portfolio_id` and a successful portfolio fetch, stops the poll loop; but
observing `cancelled` does not stop it — the tick asks for another poll, and
it still mutates the job snapshot (and possibly the timeline via coalescing,
though it appends nothing). -/
theorem c2_terminal_statuses (st : EditorState) (d : JobStatusData)
    (pf : FetchOutcome Portfolio) :
    (d.status = .failed → (pollJobStatus st (.ok d) pf).shouldStop = true)
    ∧ (∀ p, d.status = .completed → jsTruthy d.portfolio_id = true →
        pf = .ok p → (pollJobStatus st (.ok d) pf).shouldStop = true)
    ∧ (d.status = .cancelled →
        (pollJobStatus st (.ok d) pf).shouldStop = false
        ∧ (pollJobStatus st (.ok d) pf).state.messages.length = st.messages.length
        ∧ (pollJobStatus st (.ok d) pf).state.jobStatus = some d) := by
  refine ⟨?_, ?_, ?_⟩
  · intro hf
    have hnc : ¬(d.status = .completed ∧ jsTruthy d.portfolio_id = true) := by
      rintro ⟨hc, -⟩
      rw [hf] at hc
      exact JobStatus.noConfusion hc
    simp only [pollJobStatus]
    rw [if_neg hnc, if_pos hf]
  · intro p hc hp hpf
    subst hpf
    simp only [pollJobStatus]
    rw [if_pos ⟨hc, hp⟩]
  · intro hcan
    have hnf : d.status ≠ .failed := by
      rw [hcan]
      exact fun h => JobStatus.noConfusion h
    have hnc : ¬(d.status = .completed ∧ jsTruthy d.portfolio_id = true) := by
      rintro ⟨hc, -⟩
      rw [hcan] at hc
      exact JobStatus.noConfusion hc
    rw [pollJobStatus_ok_nonterminal st d pf hnf hnc]
    exact ⟨rfl, coalesceStatus_length _ _, rfl⟩

/-- C2 witness: the amended theorem applied to a concrete `failed` snapshot. -/
theorem c2_terminal_statuses_witness :
    (pollJobStatus (initialEditorState "" none "job-1")
        (.ok { job_id := "job-1", status := .failed, progress_percentage := 10,
               current_stage := none, error := some ⟨"boom", none⟩, portfolio_id := none })
        (.err none)).shouldStop = true :=
  (c2_terminal_statuses _ _ _).1 rfl

/-- C5: a status-fetch error of HTTP 404 stops polling, clears the
in-progress flag and appends the job-not-found message; any other fetch
error (other HTTP status or a response-less network failure) leaves the
component state entirely unchanged and keeps polling — no message, no
backoff, same fixed interval. -/
theorem c5_fetch_error_handling (st : EditorState) (pf : FetchOutcome Portfolio)
    (e : Option Nat) (he : e ≠ some 404) :
    pollJobStatus st (.err (some 404)) pf =
      { state := { st with
          isGenerating := false
          messages := st.messages ++ [jobNotFoundMessage] }
        shouldStop := true
        portfolioFetched := false }
    ∧ pollJobStatus st (.err e) pf =
      { state := st, shouldStop := false, portfolioFetched := false } := by
  constructor
  · simp [pollJobStatus]
  · simp only [pollJobStatus]
    rw [if_neg he]

/-- C5 witness: the theorem applied at a concrete state, with a network
error (no HTTP status) as the non-404 error. -/
theorem c5_fetch_error_handling_witness :
    (pollJobStatus (initialEditorState "" none "job-1") (.err none)
        (.err none)).shouldStop = false := by
  have h := c5_fetch_error_handling (initialEditorState "" none "job-1")
    (.err none) none (by decide)
  rw [h.2]

/-- C8: a connection error on the streaming socket clears the in-progress
flag and appends exactly one assistant message reporting the failure — the
rest of the timeline is preserved — and no reconnection is attempted: the
number of connections ever opened and the socket handle are untouched. -/
theorem c8_socket_error_single_message (st : StreamState) :
    (onSocketError st).isGenerating = false
    ∧ (onSocketError st).messages.length = st.messages.length + 1
    ∧ (onSocketError st).messages.take st.messages.length = st.messages
    ∧ (onSocketError st).messages.getLast?
        = some ⟨.assistant, "‚ùå Connection Error. Please verify backend is running."⟩
    ∧ (onSocketError st).connectionsOpened = st.connectionsOpened
    ∧ (onSocketError st).socketOpen = st.socketOpen := by
  refine ⟨rfl, ?_, ?_, ?_, rfl, rfl⟩
  · simp [onSocketError]
  · exact List.take_left st.messages _
  · exact List.getLast?_concat st.messages

/-- C9: submitting blank text is a no-op in both transports: the polling
editor's `handleSend` returns with the state untouched when the input is
all-whitespace, and the streaming `handleSend` likewise when the effective
text (override or input) trims to empty — no message, no connection, no
in-progress flag. -/
theorem c9_blank_send_is_no_op (stE : EditorState) (stS : StreamState)
    (ov : Option String)
    (hE : jsTrim stE.input = "") (hS : jsTrim (jsOrElse ov stS.input) = "") :
    editorHandleSend stE = stE ∧ streamHandleSend stS ov = stS := by
  constructor
  · unfold editorHandleSend
    rw [if_pos hE]
  · simp only [streamHandleSend]
    rw [if_pos hS]

/-- C9 witness: whitespace-only inputs in both transports, concretely. -/
theorem c9_blank_send_is_no_op_witness :
    editorHandleSend
        { messages := [], input := "   ", isGenerating := false,
          jobStatus := none, portfolioData := none }
      = { messages := [], input := "   ", isGenerating := false,
          jobStatus := none, portfolioData := none }
    ∧ streamHandleSend ⟨[], " \t ", false, "", false, 0⟩ none
      = ⟨[], " \t ", false, "", false, 0⟩ :=
  c9_blank_send_is_no_op _ _ none (by decide) (by decide)

/-- Applying the coalescing updater twice with content that does not itself
contain `"analyzing"` is the same as applying it once: after a replacement
the new last message no longer matches the guard, and a skipped update leaves
the list (and hence the guard) as it was. -/
theorem coalesceStatus_idem (msgs : List Message) (c : String)
    (hc : jsIncludes c "analyzing" = false) :
    coalesceStatus (coalesceStatus msgs c) c = coalesceStatus msgs c := by
  by_cases hg : (msgs.getLast?.map isAckAssistant).getD false = true
  · have h1 : coalesceStatus msgs c = msgs.dropLast ++ [⟨.assistant, c⟩] := by
      unfold coalesceStatus
      rw [if_pos hg]
    rw [h1]
    exact coalesceStatus_skips _ c ⟨.assistant, c⟩ (List.getLast?_concat _)
      (by simp [isAckAssistant, hc])
  · have h1 : coalesceStatus msgs c = msgs := by
      unfold coalesceStatus
      rw [if_neg hg]
    rw [h1, h1]

/-- C3 counterexample: the first poll tick rewrites the acknowledgement into
the progress line for a `pending`/0% snapshot; a second tick that carries a
different snapshot (`processing`, 50%, stage `"stage2"`) leaves the timeline
bit-for-bit unchanged — the prior progress update is *not* replaced with a
freshly formatted line, because it no longer contains `"analyzing"`. -/
theorem c3_progress_line_not_refreshed :
    (pollJobStatus
        (pollJobStatus (initialEditorState "" none "job-1")
            (.ok { job_id := "job-1", status := .pending, progress_percentage := 0,
                   current_stage := none, error := none, portfolio_id := none })
            (.err none)).state
        (.ok { job_id := "job-1", status := .processing, progress_percentage := 50,
               current_stage := some "stage2", error := none, portfolio_id := none })
        (.err none)).state.messages
      = [⟨.user, "[Job ID: job-1]"⟩,
         ⟨.assistant, "Job queued, waiting to start...\n\nProgress: 0%\nStage: Initializing"⟩] := by
  rfl

/-- C3 (amended): a successful non-terminal poll tick updates the timeline
only through the coalescing rule keyed on the `"analyzing"` substring: when
the last message is the assistant acknowledgement (which contains
`"analyzing"`) it is replaced in place by the freshly formatted progress
line; any other last message — in particular a prior progress update — is
left untouched; the tick never appends a message, and applying the same
snapshot twice changes nothing after the first application whenever the
formatted line does not itself contain `"analyzing"`. -/
theorem c3_coalescing (st : EditorState) (d : JobStatusData)
    (pf : FetchOutcome Portfolio)
    (hnf : d.status ≠ .failed)
    (hnc : ¬(d.status = .completed ∧ jsTruthy d.portfolio_id = true)) :
    ((pollJobStatus st (.ok d) pf).state.messages
        = coalesceStatus st.messages (progressLine d)
      ∧ (pollJobStatus st (.ok d) pf).state.messages.length = st.messages.length)
    ∧ (∀ m, st.messages.getLast? = some m → isAckAssistant m = true →
        (pollJobStatus st (.ok d) pf).state.messages
          = st.messages.dropLast ++ [⟨.assistant, progressLine d⟩])
    ∧ (∀ m, st.messages.getLast? = some m → isAckAssistant m = false →
        (pollJobStatus st (.ok d) pf).state.messages = st.messages)
    ∧ (jsIncludes (progressLine d) "analyzing" = false →
        (pollJobStatus (pollJobStatus st (.ok d) pf).state (.ok d) pf).state.messages
          = (pollJobStatus st (.ok d) pf).state.messages) := by
  have hred := pollJobStatus_ok_nonterminal st d pf hnf hnc
  refine ⟨⟨?_, ?_⟩, ?_, ?_, ?_⟩
  · rw [hred]
  · rw [hred]
    exact coalesceStatus_length _ _
  · intro m hm hack
    rw [hred]
    exact coalesceStatus_replaces _ _ m hm hack
  · intro m hm hack
    rw [hred]
    exact coalesceStatus_skips _ _ m hm hack
  · intro hinc
    rw [hred, pollJobStatus_ok_nonterminal _ d pf hnf hnc]
    exact coalesceStatus_idem _ _ hinc

/-- C3 witness: the amended theorem applied to the freshly seeded state (whose
last message is the acknowledgement containing `"analyzing"`) and a concrete
`pending` snapshot: the acknowledgement is replaced by the progress line. -/
theorem c3_coalescing_witness :
    (pollJobStatus (initialEditorState "" none "job-1")
        (.ok { job_id := "job-1", status := .pending, progress_percentage := 0,
               current_stage := none, error := none, portfolio_id := none })
        (.err none)).state.messages
      = (initialEditorState "" none "job-1").messages.dropLast
          ++ [⟨.assistant, progressLine
                { job_id := "job-1", status := .pending, progress_percentage := 0,
                  current_stage := none, error := none, portfolio_id := none }⟩] :=
  (c3_coalescing (initialEditorState "" none "job-1") _ (.err none)
      (by decide) (by decide)).2.1 _ rfl (by decide)

/-- C4: when the snapshot reports `completed` with a truthy `portfolio_id`
and the portfolio fetch answers HTTP 202 or 404, the response is not treated
as fatal: nothing is appended to the timeline, the in-progress flag is left
alone, and the tick reports "keep polling" so the fetch is retried on the
next tick. -/
theorem c4_result_not_ready_not_fatal (st : EditorState) (d : JobStatusData)
    (s : Nat) (hc : d.status = .completed) (hp : jsTruthy d.portfolio_id = true)
    (_hs : s = 202 ∨ s = 404) :
    (pollJobStatus st (.ok d) (.err (some s))).shouldStop = false
    ∧ (pollJobStatus st (.ok d) (.err (some s))).state.messages.length
        = st.messages.length
    ∧ (pollJobStatus st (.ok d) (.err (some s))).state.isGenerating
        = st.isGenerating
    ∧ (pollJobStatus st (.ok d) (.err (some s))).portfolioFetched = true := by
  have hred : pollJobStatus st (.ok d) (.err (some s)) =
      { state := { st with
          jobStatus := some d
          messages := coalesceStatus st.messages (progressLine d) }
        shouldStop := false
        portfolioFetched := true } := by
    simp only [pollJobStatus]
    rw [if_pos ⟨hc, hp⟩]
  rw [hred]
  exact ⟨rfl, coalesceStatus_length _ _, rfl, rfl⟩

/-- C4 witness: a concrete `completed` snapshot whose portfolio fetch answers
404 keeps the poller going. -/
theorem c4_result_not_ready_not_fatal_witness :
    (pollJobStatus (initialEditorState "" none "job-1")
        (.ok { job_id := "job-1", status := .completed, progress_percentage := 100,
               current_stage := none, error := none, portfolio_id := some "p-1" })
        (.err (some 404))).shouldStop = false :=
  (c4_result_not_ready_not_fatal (initialEditorState "" none "job-1") _ 404
      rfl (by decide) (Or.inr rfl)).1

/-- C7: a snapshot with status `failed` stops polling at once — the tick's
verdict and state do not depend on any portfolio fetch, and none is made —
clears the in-progress flag and appends a failure message whose text embeds
the reported `error.message` verbatim. -/
theorem c7_failed_reports_error (st : EditorState) (d : JobStatusData)
    (em : String) (det : Option String) (pf : FetchOutcome Portfolio)
    (hf : d.status = .failed) (he : d.error = some ⟨em, det⟩) (hm : em ≠ "") :
    (pollJobStatus st (.ok d) pf).shouldStop = true
    ∧ (pollJobStatus st (.ok d) pf).portfolioFetched = false
    ∧ (pollJobStatus st (.ok d) pf).state.isGenerating = false
    ∧ (pollJobStatus st (.ok d) pf).state.messages.getLast?
        = some ⟨.assistant, "❌ Portfolio generation failed.\n\nError: " ++ em
            ++ "\n\nPlease try uploading your resume again."⟩ := by
  rw [pollJobStatus_ok_failed st d pf hf]
  refine ⟨rfl, rfl, rfl, ?_⟩
  have hmsg : failureMessage d
      = ⟨.assistant, "❌ Portfolio generation failed.\n\nError: " ++ em
          ++ "\n\nPlease try uploading your resume again."⟩ := by
    unfold failureMessage
    rw [he]
    simp [jsOrElse, hm]
  rw [hmsg]
  exact List.getLast?_concat _

/-- C7 witness: a concrete `failed` snapshot with error message `"boom"`. -/
theorem c7_failed_reports_error_witness :
    (pollJobStatus (initialEditorState "" none "job-1")
        (.ok { job_id := "job-1", status := .failed, progress_percentage := 70,
               current_stage := some "ai", error := some ⟨"boom", none⟩,
               portfolio_id := none })
        (.err none)).state.messages.getLast?
      = some ⟨.assistant, "❌ Portfolio generation failed.\n\nError: " ++ "boom"
          ++ "\n\nPlease try uploading your resume again."⟩ :=
  (c7_failed_reports_error (initialEditorState "" none "job-1") _ "boom" none
      (.err none) rfl rfl (by decide)).2.2.2

/-- C10: a tick performs the result fetch exactly when its snapshot reports
`completed` with a truthy `portfolio_id`; when `completed` arrives without a
`portfolio_id` the tick makes no result fetch, appends nothing (in particular
no completion message), and polling continues with the next tick; a
status-fetch error never triggers a result fetch either. -/
theorem c10_result_fetch_guard (st : EditorState) (d : JobStatusData)
    (pf : FetchOutcome Portfolio) (e : Option Nat) :
    ((pollJobStatus st (.ok d) pf).portfolioFetched = true ↔
        (d.status = .completed ∧ jsTruthy d.portfolio_id = true))
    ∧ (d.status = .completed → d.portfolio_id = none →
        (pollJobStatus st (.ok d) pf).portfolioFetched = false
        ∧ (pollJobStatus st (.ok d) pf).shouldStop = false
        ∧ (pollJobStatus st (.ok d) pf).state.messages.length = st.messages.length)
    ∧ (pollJobStatus st (.err e) pf).portfolioFetched = false := by
  refine ⟨?_, ?_, ?_⟩
  · by_cases hcond : d.status = .completed ∧ jsTruthy d.portfolio_id = true
    · refine ⟨fun _ => hcond, fun _ => ?_⟩
      simp only [pollJobStatus]
      rw [if_pos hcond]
      cases pf with
      | ok p => rfl
      | err s => rfl
    · refine ⟨fun hfetched => ?_, fun h => absurd h hcond⟩
      exfalso
      by_cases hff : d.status = .failed
      · rw [pollJobStatus_ok_failed st d pf hff] at hfetched
        exact Bool.noConfusion hfetched
      · rw [pollJobStatus_ok_nonterminal st d pf hff hcond] at hfetched
        exact Bool.noConfusion hfetched
  · intro hc hnone
    have hcond : ¬(d.status = .completed ∧ jsTruthy d.portfolio_id = true) := by
      rintro ⟨-, ht⟩
      rw [hnone] at ht
      simp [jsTruthy] at ht
    have hff : d.status ≠ .failed := by
      rw [hc]
      exact fun h => JobStatus.noConfusion h
    rw [pollJobStatus_ok_nonterminal st d pf hff hcond]
    exact ⟨rfl, rfl, coalesceStatus_length _ _⟩
  · simp only [pollJobStatus]
    by_cases he : e = some 404
    · rw [if_pos he]
    · rw [if_neg he]

/-- C10 witness: a concrete `completed` snapshot with no `portfolio_id`
triggers no fetch and keeps polling. -/
theorem c10_result_fetch_guard_witness :
    (pollJobStatus (initialEditorState "" none "job-1")
        (.ok { job_id := "job-1", status := .completed, progress_percentage := 100,
               current_stage := none, error := none, portfolio_id := none })
        (.err none)).portfolioFetched = false :=
  ((c10_result_fetch_guard (initialEditorState "" none "job-1") _
      (.err none) none).2.1 rfl rfl).1

/-- Processing non-sentinel frames from a state whose last message is an
assistant message holding exactly the accumulator extends that message in
place, frame by frame, in arrival order. -/
theorem runFrames_extend (ms0 : List Message) (inp : String) (g o : Bool)
    (cnt : Nat) (a : String) (fs : List String)
    (hs : ∀ f ∈ fs, f ≠ endOfStream) :
    runFrames ⟨ms0 ++ [⟨.assistant, a⟩], inp, g, a, o, cnt⟩ fs
      = ⟨ms0 ++ [⟨.assistant, a ++ concatFrames fs⟩], inp, g,
          a ++ concatFrames fs, o, cnt⟩ := by
  induction fs generalizing a with
  | nil =>
      simp [runFrames, concatFrames]
  | cons f rest ih =>
      have hf : f ≠ endOfStream := hs f (List.mem_cons_self f rest)
      have hrest : ∀ x ∈ rest, x ≠ endOfStream :=
        fun x hx => hs x (List.mem_cons_of_mem f hx)
      have hstep : onMessageFrame ⟨ms0 ++ [⟨.assistant, a⟩], inp, g, a, o, cnt⟩ f
          = ⟨ms0 ++ [⟨.assistant, a ++ f⟩], inp, g, a ++ f, o, cnt⟩ := by
        unfold onMessageFrame
        rw [if_neg hf]
        simp [List.getLast?_concat, List.dropLast_concat]
      show runFrames (onMessageFrame ⟨ms0 ++ [⟨.assistant, a⟩], inp, g, a, o, cnt⟩ f) rest = _
      rw [hstep, ih (a ++ f) hrest]
      simp [concatFrames, String.append_assoc]

/-- C6: in any streaming session whose timeline currently ends with the
user's message and whose accumulator is empty (the situation right after
`handleSend` opened the socket), a non-empty sequence of non-sentinel frames
followed by the sentinel appends exactly one assistant message whose content
is the concatenation of the frames in arrival order, clears the generating
flag and closes the connection. -/
theorem c6_streaming_accumulation (ms0 : List Message) (u inp : String)
    (g o : Bool) (cnt : Nat) (fs : List String) (hne : fs ≠ [])
    (hs : ∀ f ∈ fs, f ≠ endOfStream) :
    runFrames ⟨ms0 ++ [⟨.user, u⟩], inp, g, "", o, cnt⟩ (fs ++ [endOfStream])
      = ⟨ms0 ++ [⟨.user, u⟩, ⟨.assistant, concatFrames fs⟩], inp, false,
          concatFrames fs, false, cnt⟩ := by
  cases fs with
  | nil => exact absurd rfl hne
  | cons f rest =>
      have hf : f ≠ endOfStream := hs f (List.mem_cons_self f rest)
      have hrest : ∀ x ∈ rest, x ≠ endOfStream :=
        fun x hx => hs x (List.mem_cons_of_mem f hx)
      have hsplit : ∀ st : StreamState,
          runFrames st ((f :: rest) ++ [endOfStream])
            = onMessageFrame (runFrames st (f :: rest)) endOfStream := by
        intro st
        simp [runFrames, List.foldl_append]
      rw [hsplit]
      have hstep : onMessageFrame ⟨ms0 ++ [⟨.user, u⟩], inp, g, "", o, cnt⟩ f
          = ⟨(ms0 ++ [⟨.user, u⟩]) ++ [⟨.assistant, "" ++ f⟩], inp, g, "" ++ f, o, cnt⟩ := by
        unfold onMessageFrame
        rw [if_neg hf]
        simp [List.getLast?_concat]
      have hrun : runFrames ⟨ms0 ++ [⟨.user, u⟩], inp, g, "", o, cnt⟩ (f :: rest)
          = ⟨(ms0 ++ [⟨.user, u⟩]) ++ [⟨.assistant, ("" ++ f) ++ concatFrames rest⟩],
              inp, g, ("" ++ f) ++ concatFrames rest, o, cnt⟩ := by
        show runFrames (onMessageFrame ⟨ms0 ++ [⟨.user, u⟩], inp, g, "", o, cnt⟩ f) rest = _
        rw [hstep]
        exact runFrames_extend (ms0 ++ [⟨.user, u⟩]) inp g o cnt ("" ++ f) rest hrest
      rw [hrun]
      unfold onMessageFrame
      rw [if_pos rfl]
      have hacc : ("" ++ f) ++ concatFrames rest = concatFrames (f :: rest) := by
        show ("" ++ f) ++ concatFrames rest = f ++ concatFrames rest
        rw [String.append_assoc]
        rfl
      rw [hacc]
      simp [List.append_assoc]

/-- C6 witness: the spec's concrete scenario — fragments `["Hel", "lo",
" world"]` then the sentinel — yields a single assistant message reading
`"Hello world"`, generation finished, connection closed. -/
theorem c6_streaming_accumulation_witness :
    runFrames ⟨[⟨.user, "hi"⟩], "", true, "", true, 1⟩
        (["Hel", "lo", " world"] ++ [endOfStream])
      = ⟨[⟨.user, "hi"⟩, ⟨.assistant, "Hello world"⟩], "", false,
          "Hello world", false, 1⟩ :=
  c6_streaming_accumulation [] "hi" "" true true 1 ["Hel", "lo", " world"]
    (by decide) (by decide)
